import Mathlib

/-!
Verification of the tool-calling orchestration core of the ragchatbot backend.

The definitions below are a shallow embedding of
`src/ragchatbot/backend/ai_generator.py` (class `AIGenerator`) together with a
model, taken from the specification, of the tool registry implemented in
`search_tools.py` (whose source is not part of the provided tree, only its
tests).  The remote Anthropic client is replaced by an explicit oracle: a list
of model responses consumed one per remote call; each remote call is recorded
as an `ApiRequest` so that theorems can speak about the number of calls and the
exact parameters of each.  Python exceptions (`AttributeError` on a content
block without a `text` attribute, `IndexError` on an empty content list,
`StopIteration` from an exhausted mock) are modelled by the `PyError` type, and
a run returns `Except PyError String` instead of raising.
-/

/-- Keyword arguments of a tool invocation (`**content_block.input`); values
are kept opaque as strings. -/
abbrev KwArgs := List (String × String)

/-- A tool definition advertised to the remote model (the dicts passed as the
`tools` parameter in the tests). -/
structure ToolDef where
  name : String
  description : String
  deriving DecidableEq, Repr

/-- One content block of a remote model response.  `text` is `none` when the
block (for instance a `tool_use` block) has no `text` attribute, in which case
reading it raises `AttributeError` in the Python source. -/
structure ContentBlock where
  type : String
  text : Option String
  name : String
  id : String
  input : KwArgs
  deriving DecidableEq, Repr

/-- A tool-result dictionary as built by `AIGenerator._execute_tools`
(`{"type": "tool_result", "tool_use_id": ..., "content": ...}`). -/
structure ToolResultBlock where
  type : String
  tool_use_id : String
  content : String
  deriving DecidableEq, Repr

/-- A remote model response: stop reason plus content blocks. -/
structure ModelResponse where
  stop_reason : String
  content : List ContentBlock
  deriving DecidableEq, Repr

/-- The content of one transcript message: the initial user query is a plain
string, an assistant message carries the whole response content, and a user
tool-result message carries the list of tool-result dictionaries. -/
inductive MsgContent where
  | text (s : String)
  | blocks (bs : List ContentBlock)
  | results (rs : List ToolResultBlock)
  deriving DecidableEq, Repr

/-- One message of the accumulated transcript (`{"role": ..., "content": ...}`). -/
structure Message where
  role : String
  content : MsgContent
  deriving DecidableEq, Repr

/-- The keyword arguments of one `self.client.messages.create(**api_params)`
call.  `tools = none` / `tool_choice = none` mean the corresponding keys are
absent from the params dict. -/
structure ApiRequest where
  model : String
  temperature : Nat
  max_tokens : Nat
  messages : List Message
  system : String
  tools : Option (List ToolDef)
  tool_choice : Option String
  deriving DecidableEq, Repr

/-- Outcome of `tool_manager.execute_tool`: a returned value, or a raised
exception carrying its message. -/
inductive ToolOutcome where
  | ok (result : String)
  | exn (message : String)
  deriving DecidableEq, Repr

/-- The tool manager as seen by `AIGenerator`: an object with an
`execute_tool(name, **kwargs)` method that may raise. -/
structure ToolManager where
  execute_tool : String → KwArgs → ToolOutcome

/-- Python exceptions observable from `generate_response` in this model. -/
inductive PyError where
  | indexError
  | attributeError
  | stopIteration
  deriving DecidableEq, Repr

/-- The observable behaviour of one `generate_response` call: the remote
requests issued in order, the tool dispatches performed in order, and the
returned string or raised exception. -/
structure GenTrace where
  requests : List ApiRequest
  toolCalls : List (String × KwArgs)
  result : Except PyError String
  deriving Repr

/-- Python truthiness of an optional string (`if conversation_history:`):
`None` and the empty string are falsy. -/
def truthyStr : Option String → Bool
  | none => false
  | some s => decide (s ≠ "")

/-- Python truthiness of an optional list (`if tools:`): `None` and the empty
list are falsy. -/
def truthyList {α : Type} : Option (List α) → Bool
  | none => false
  | some [] => false
  | some (_ :: _) => true

/-- The generator object: `__init__` stores the api key (in the client) and the
model name; `base_params` is rebuilt from these below. -/
structure AIGenerator where
  api_key : String
  model : String
  deriving DecidableEq, Repr

/-- The static system prompt `AIGenerator.SYSTEM_PROMPT`, transcribed verbatim
from the source. -/
def SYSTEM_PROMPT : String := " You are an AI assistant specialized in course materials and educational content with access to tools for course information.

Tool Usage:
- **search_course_content**: Search course materials for specific content or detailed educational materials
- **get_course_outline**: Get course structure - use when users ask about:
  - What lessons are in a course
  - Course outline or structure
  - What topics a course covers
  - Links to specific lessons or courses
- **Up to 2 sequential tool calls per query**:
  - You may call a second tool after seeing the first result if needed
  - Example: Get course outline first, then search for specific content
  - Example: Search one course, then search another for comparison
- Synthesize tool results into accurate, fact-based responses
- If tool yields no results, state this clearly without offering alternatives

Response Protocol:
- **General knowledge questions**: Answer using existing knowledge without tools
- **Course-specific content questions**: Use search_course_content first
- **Course structure/outline questions**: Use get_course_outline first
- **No meta-commentary**:
 - Provide direct answers only â€” no reasoning process, search explanations, or question-type analysis
 - Do not mention \"based on the search results\" or \"based on the outline\"

When presenting course outlines, include:
- Course title and link
- All lesson numbers and titles with their links

All responses must be:
1. **Brief, Concise and focused** - Get to the point quickly
2. **Educational** - Maintain instructional value
3. **Clear** - Use accessible language
4. **Example-supported** - Include relevant examples when they aid understanding
Provide only the direct answer to what was asked.
"

/-- The `system_content` computed at the top of `generate_response`:
`f\"\x7bSYSTEM_PROMPT\x7d\n\nPrevious conversation:\n\x7bconversation_history\x7d\"`
when the history is truthy, else the bare prompt. -/
def systemContent (conversation_history : Option String) : String :=
  if truthyStr conversation_history then
    SYSTEM_PROMPT ++ "\n\nPrevious conversation:\n" ++ conversation_history.getD ""
  else
    SYSTEM_PROMPT

/-- The `api_params` dict for one remote call: `base_params` plus `messages`
and `system`, with `tools` and `tool_choice = {\"type\": \"auto\"\x7d` added only
when `tools` is truthy.  The final forced call passes `tools := none`, which
reproduces `final_params` (no tools keys). -/
def mkApiParams (g : AIGenerator) (messages : List Message) (system : String)
    (tools : Option (List ToolDef)) : ApiRequest :=
  if truthyList tools then
    { model := g.model, temperature := 0, max_tokens := 800,
      messages := messages, system := system,
      tools := tools, tool_choice := some "auto" }
  else
    { model := g.model, temperature := 0, max_tokens := 800,
      messages := messages, system := system,
      tools := none, tool_choice := none }

/-- `response.content[0].text`: `IndexError` on an empty list, `AttributeError`
when the first block has no `text` attribute. -/
def firstText : List ContentBlock → Except PyError String
  | [] => Except.error PyError.indexError
  | b :: _ =>
    match b.text with
    | some t => Except.ok t
    | none => Except.error PyError.attributeError

/-- The loop body of `AIGenerator._execute_tools` for one content block: a
`tool_use` block is dispatched to the tool manager (a raised exception is
converted into the `Error executing tool ...` result string); any other block
produces no result. -/
def execBlock (tm : ToolManager) (b : ContentBlock) : Option ToolResultBlock :=
  if b.type = "tool_use" then
    some { type := "tool_result", tool_use_id := b.id,
           content :=
             match tm.execute_tool b.name b.input with
             | ToolOutcome.ok r => r
             | ToolOutcome.exn e =>
                 "Error executing tool \x27" ++ b.name ++ "\x27: " ++ e }
  else
    none

/-- `AIGenerator._execute_tools`: one result per `tool_use` block, in content
order. -/
def executeTools (tm : ToolManager) (response : ModelResponse) : List ToolResultBlock :=
  response.content.filterMap (execBlock tm)

/-- The `execute_tool` dispatches performed while processing the content of one
content: one `(name, input)` pair per `tool_use` block, in content order. -/
def toolCallsOf (content : List ContentBlock) : List (String × KwArgs) :=
  content.filterMap fun b =>
    if b.type = "tool_use" then some (b.name, b.input) else none

/-- The two messages appended to the transcript after one completed tool
round: the assistant message carrying the whole response content, then the
user message carrying the tool results. -/
def roundMsgs (tm : ToolManager) (r : ModelResponse) : List Message :=
  [{ role := "assistant", content := MsgContent.blocks r.content },
   { role := "user", content := MsgContent.results (executeTools tm r) }]

/-- The `while round_count < max_tool_rounds` loop of `generate_response`,
written as recursion on the number of remaining rounds (`fuel`), followed by
the forced final call without tools once the fuel is exhausted.  Each remote
call consumes the head of the oracle; an exhausted oracle still records the
request (the mock records the call before raising) and yields
`StopIteration`. -/
def genLoop (g : AIGenerator) (system_content : String) (tools : Option (List ToolDef))
    (tool_manager : Option ToolManager) (oracle : List ModelResponse)
    (messages : List Message) : Nat → GenTrace
  | 0 =>
    let req := mkApiParams g messages system_content none
    match oracle with
    | [] => { requests := [req], toolCalls := [], result := Except.error PyError.stopIteration }
    | resp :: _ => { requests := [req], toolCalls := [], result := firstText resp.content }
  | fuel + 1 =>
    let req := mkApiParams g messages system_content tools
    match oracle with
    | [] => { requests := [req], toolCalls := [], result := Except.error PyError.stopIteration }
    | resp :: rest =>
      if resp.stop_reason ≠ "tool_use" then
        { requests := [req], toolCalls := [], result := firstText resp.content }
      else
        match tool_manager with
        | none => { requests := [req], toolCalls := [], result := firstText resp.content }
        | some tm =>
          let sub := genLoop g system_content tools tool_manager rest
            (messages ++ roundMsgs tm resp) fuel
          { requests := req :: sub.requests,
            toolCalls := toolCallsOf resp.content ++ sub.toolCalls,
            result := sub.result }

/-- `AIGenerator.generate_response`, with the remote client replaced by the
response oracle.  The message list is initialized with the single user message
carrying the query. -/
def generate_response (g : AIGenerator) (query : String)
    (conversation_history : Option String) (tools : Option (List ToolDef))
    (tool_manager : Option ToolManager) (max_tool_rounds : Nat)
    (oracle : List ModelResponse) : GenTrace :=
  genLoop g (systemContent conversation_history) tools tool_manager oracle
    [{ role := "user", content := MsgContent.text query }] max_tool_rounds

/-- The transcript after the rounds in `rounds` have completed: the user query
followed, per round, by the assistant message and the tool-results user
message. -/
def transcriptAfter (query : String) (tm : ToolManager) (rounds : List ModelResponse) :
    List Message :=
  { role := "user", content := MsgContent.text query } :: rounds.flatMap (roundMsgs tm)

/-- The system text that the words of the specification predict for a given supplied
history (used to compare the claim of the spec about history handling against the
code): the static prompt with the prior-turn context attached whenever a
history is supplied at all. -/
def specSystemText : Option String → String
  | some h => SYSTEM_PROMPT ++ "\n\nPrevious conversation:\n" ++ h
  | none => SYSTEM_PROMPT

/-- A citation produced by a tool: title plus optional link. -/
structure Source where
  title : String
  link : Option String
  deriving DecidableEq, Repr

/-- Modelled from the spec: the outcome of one tool `execute` in the registry
model of §4.2/§4.3 of the spec (`search_tools.py` is not among the provided
sources, only its tests) — either a returned text together with the sources
recorded during the call, or a raised failure carrying its message. -/
inductive RunResult where
  | ok (text : String) (sources : List Source)
  | raise (message : String)

/-- Modelled from the spec: one registered tool — a name and an `execute`
operation; the argument type `α` stands for the keyword arguments of the tool. -/
structure RegTool (α : Type) where
  name : String
  run : α → RunResult

/-- Modelled from the spec: the `ToolManager` registry of `search_tools.py` —
a name-indexed store of tools plus the "last sources" accumulator that
reflects the most recent `execute`. -/
structure Registry (α : Type) where
  tools : List (RegTool α)
  last_sources : List Source

/-- Modelled from the spec: `ToolManager.execute_tool`.  An unknown name
returns the literal diagnostic `Tool \x27<name>\x27 not found` as a value; a
failure raised by the tool is caught and converted to
`Tool execution error: <details>`; a successful run returns the text of the tool
and records its sources as the last sources of the registry.  The operation is
total: it never raises. -/
def Registry.execute_tool {α : Type} (st : Registry α) (name : String) (args : α) :
    String × Registry α :=
  match st.tools.find? (fun t => t.name == name) with
  | none => ("Tool \x27" ++ name ++ "\x27 not found", st)
  | some t =>
    match t.run args with
    | RunResult.ok text srcs => (text, { st with last_sources := srcs })
    | RunResult.raise e => ("Tool execution error: " ++ e, st)

/-- Modelled from the spec: `ToolManager.get_last_sources`. -/
def Registry.get_last_sources {α : Type} (st : Registry α) : List Source :=
  st.last_sources

/-- Modelled from the spec: `ToolManager.reset_sources` clears the recorded
sources so the next query starts clean. -/
def Registry.reset_sources {α : Type} (st : Registry α) : Registry α :=
  { st with last_sources := [] }

/-- One ranked chunk returned by the search backend. -/
structure Chunk where
  text : String
  courseTitle : String
  lessonNumber : Option Nat
  deriving DecidableEq, Repr

/-- The reply of the search backend: ranked chunks or an explicit error. -/
structure SearchResults where
  chunks : List Chunk
  error : Option String
  deriving DecidableEq, Repr

/-- The keyword arguments of `CourseSearchTool.execute`. -/
structure SearchArgs where
  query : String
  course_name : Option String
  lesson_number : Option Nat
  deriving DecidableEq, Repr

/-- Modelled from the spec: the vector-store backend consumed by the search
tool (§6), treated as a black box. -/
structure VectorStoreModel where
  search : SearchArgs → SearchResults
  getLessonLink : String → Nat → Option String
  getCourseLink : String → Option String

/-- Modelled from the spec: the `Source` recorded for one rendered chunk — the
course/lesson title, and a link resolved lesson-first with a course-level
fallback when the chunk has no lesson number. -/
def chunkSource (vs : VectorStoreModel) (c : Chunk) : Source :=
  match c.lessonNumber with
  | some n =>
    { title := c.courseTitle ++ " - Lesson " ++ toString n,
      link := vs.getLessonLink c.courseTitle n }
  | none =>
    { title := c.courseTitle, link := vs.getCourseLink c.courseTitle }

/-- Modelled from the spec: the labeled rendering of one chunk. -/
def formatChunk (c : Chunk) : String :=
  match c.lessonNumber with
  | some n => "[" ++ c.courseTitle ++ " - Lesson " ++ toString n ++ "]\n" ++ c.text
  | none => "[" ++ c.courseTitle ++ "]\n" ++ c.text

/-- Modelled from the spec: the fixed no-results message, echoing back any
filters the caller supplied. -/
def emptySearchMessage (args : SearchArgs) : String :=
  "No relevant content found"
    ++ (match args.course_name with
        | some cn => " in course \x27" ++ cn ++ "\x27"
        | none => "")
    ++ (match args.lesson_number with
        | some n => " in lesson " ++ toString n
        | none => "")

/-- Modelled from the spec: `CourseSearchTool.execute` — an explicit backend
error is passed through verbatim, an empty result set yields the fixed
no-results message, and otherwise the rendered chunks are joined in ranked
order while one `Source` per chunk is recorded. -/
def courseSearchRun (vs : VectorStoreModel) (args : SearchArgs) : RunResult :=
  let results := vs.search args
  match results.error with
  | some e => RunResult.ok e []
  | none =>
    if results.chunks.isEmpty then
      RunResult.ok (emptySearchMessage args) []
    else
      RunResult.ok (String.intercalate "\n\n" (results.chunks.map formatChunk))
        (results.chunks.map (chunkSource vs))

/-- Modelled from the spec: the registered `CourseSearchTool`. -/
def courseSearchTool (vs : VectorStoreModel) : RegTool SearchArgs :=
  { name := "search_course_content", run := courseSearchRun vs }

/-! Concrete fixtures, mirroring the objects built in the test suite; they are
used by the witness theorems below. -/

/-- A generator built as in the tests. -/
def g0 : AIGenerator := { api_key := "test_key", model := "claude-3-sonnet" }

/-- The advertised search tool definition used in the tests. -/
def searchToolDef : ToolDef := { name := "search_course_content", description := "Search" }

/-- A `tool_use` content block (no `text` attribute), as in the test mocks. -/
def toolUseBlock : ContentBlock :=
  { type := "tool_use", text := none, name := "search_course_content",
    id := "tool_call_123", input := [("query", "Python basics")] }

/-- A plain text answer block. -/
def textAnswerBlock : ContentBlock :=
  { type := "text", text := some "Based on the course content, here is the answer.",
    name := "", id := "", input := [] }

/-- A response requesting a tool. -/
def respToolUse : ModelResponse := { stop_reason := "tool_use", content := [toolUseBlock] }

/-- A final text response. -/
def respFinal : ModelResponse := { stop_reason := "end_turn", content := [textAnswerBlock] }

/-- A tool manager whose dispatch succeeds. -/
def tmOk : ToolManager := { execute_tool := fun _ _ => ToolOutcome.ok "Search results here" }

/-- A tool manager whose dispatch raises, as in
`test_tool_failure_continues_flow`. -/
def tmExn : ToolManager :=
  { execute_tool := fun _ _ => ToolOutcome.exn "Database connection failed" }

/-- A chunk as in the `sample_search_results` fixture. -/
def chunk0 : Chunk :=
  { text := "Sample content about Python programming",
    courseTitle := "Introduction to Python", lessonNumber := some 1 }

/-- A backend whose search finds exactly `chunk0`. -/
def vs0 : VectorStoreModel :=
  { search := fun _ => { chunks := [chunk0], error := none },
    getLessonLink := fun _ _ => some "https://example.com/course/lesson/1",
    getCourseLink := fun _ => none }

/-- A registry with the search tool registered and stale sources recorded. -/
def reg0 : Registry SearchArgs :=
  { tools := [courseSearchTool vs0],
    last_sources := [{ title := "stale", link := none }] }

/-- An empty registry over trivial arguments. -/
def regEmpty : Registry Unit := { tools := [], last_sources := [] }

/-- The search arguments used in the registry witness. -/
def args0 : SearchArgs := { query := "Python basics", course_name := none, lesson_number := none }

/-! Helper lemmas. -/

@[simp] lemma mkApiParams_messages (g : AIGenerator) (m : List Message) (s : String)
    (t : Option (List ToolDef)) : (mkApiParams g m s t).messages = m := by
  unfold mkApiParams; split <;> rfl

@[simp] lemma mkApiParams_system (g : AIGenerator) (m : List Message) (s : String)
    (t : Option (List ToolDef)) : (mkApiParams g m s t).system = s := by
  unfold mkApiParams; split <;> rfl

@[simp] lemma mkApiParams_none_tools (g : AIGenerator) (m : List Message) (s : String) :
    (mkApiParams g m s none).tools = none ∧ (mkApiParams g m s none).tool_choice = none := by
  constructor <;> rfl

/-- Closed form of a capped run: with `fuel = pre.length` and every response in
`pre` requesting tools, the loop performs one tool round per element of `pre`
and then issues the forced final call without tools. -/
lemma genLoop_capped (g : AIGenerator) (sys : String) (tools : Option (List ToolDef))
    (tm : ToolManager) :
    ∀ (pre post : List ModelResponse) (msgs : List Message),
      (∀ p ∈ pre, p.stop_reason = "tool_use") →
      genLoop g sys tools (some tm) (pre ++ post) msgs pre.length
        = { requests :=
              ((List.range pre.length).map fun i =>
                mkApiParams g (msgs ++ (pre.take i).flatMap (roundMsgs tm)) sys tools)
              ++ [mkApiParams g (msgs ++ pre.flatMap (roundMsgs tm)) sys none],
            toolCalls := pre.flatMap fun p => toolCallsOf p.content,
            result :=
              match post with
              | [] => Except.error PyError.stopIteration
              | f :: _ => firstText f.content } := by
  intro pre
  induction pre with
  | nil =>
    intro post msgs _
    cases post <;> simp [genLoop]
  | cons p pre ih =>
    intro post msgs hpre
    have hp : p.stop_reason = "tool_use" := hpre p (by simp)
    have hpre2 : ∀ r ∈ pre, r.stop_reason = "tool_use" := fun r hr => hpre r (by simp [hr])
    have hih := ih post (msgs ++ roundMsgs tm p) hpre2
    simp only [List.length_cons, List.cons_append, genLoop, hp, ne_eq, not_true_eq_false,
      if_false, ite_false, List.append_eq]
    rw [hih]
    simp [List.range_succ_eq_map, List.map_map, Function.comp, List.take_succ_cons,
      List.flatMap_cons, List.append_assoc]

/-- Early exit: if, after some completed tool rounds, a response whose stop
reason is not `tool_use` arrives while fuel remains, the loop returns its first
text of its first block immediately (no forced final call). -/
lemma genLoop_early (g : AIGenerator) (sys : String) (tools : Option (List ToolDef))
    (tm : ToolManager) (r : ModelResponse) (rest : List ModelResponse)
    (hr : r.stop_reason ≠ "tool_use") :
    ∀ (pre : List ModelResponse) (fuel : Nat) (msgs : List Message),
      (∀ p ∈ pre, p.stop_reason = "tool_use") → pre.length < fuel →
      genLoop g sys tools (some tm) (pre ++ r :: rest) msgs fuel
        = { requests :=
              (List.range (pre.length + 1)).map fun i =>
                mkApiParams g (msgs ++ (pre.take i).flatMap (roundMsgs tm)) sys tools,
            toolCalls := pre.flatMap fun p => toolCallsOf p.content,
            result := firstText r.content } := by
  intro pre
  induction pre with
  | nil =>
    intro fuel msgs _ hfuel
    match fuel, hfuel with
    | fuel + 1, _ =>
      simp [genLoop, hr, List.range_succ]
  | cons p pre ih =>
    intro fuel msgs hpre hfuel
    match fuel, hfuel with
    | fuel + 1, hfuel =>
      have hp : p.stop_reason = "tool_use" := hpre p (by simp)
      have hpre2 : ∀ q ∈ pre, q.stop_reason = "tool_use" := fun q hq => hpre q (by simp [hq])
      have hih := ih fuel (msgs ++ roundMsgs tm p) hpre2 (by simpa using hfuel)
      simp only [List.length_cons, List.cons_append, genLoop, hp, ne_eq, not_true_eq_false,
        if_false, ite_false, List.append_eq]
      rw [hih]
      simp [List.range_succ_eq_map, List.map_map, Function.comp, List.take_succ_cons,
        List.flatMap_cons, List.append_assoc]

/-- If the stop reason of the head response is not `tool_use`, any amount of fuel
yields the text of its first block: both the in-loop branch and the forced final
call return `response.content[0].text`. -/
lemma genLoop_text_head (g : AIGenerator) (sys : String) (tools : Option (List ToolDef))
    (tmo : Option ToolManager) (r : ModelResponse) (rest : List ModelResponse)
    (hr : r.stop_reason ≠ "tool_use") (fuel : Nat) (msgs : List Message) :
    (genLoop g sys tools tmo (r :: rest) msgs fuel).result = firstText r.content := by
  cases fuel with
  | zero => simp [genLoop]
  | succ fuel => simp [genLoop, hr]

/-- Every request issued by the loop carries the system text it was started
with. -/
lemma genLoop_system_map (g : AIGenerator) (sys : String) (tools : Option (List ToolDef)) :
    ∀ (fuel : Nat) (tmo : Option ToolManager) (oracle : List ModelResponse)
      (msgs : List Message),
      ((genLoop g sys tools tmo oracle msgs fuel).requests.map fun req => req.system)
        = List.replicate (genLoop g sys tools tmo oracle msgs fuel).requests.length sys := by
  intro fuel
  induction fuel with
  | zero =>
    intro tmo oracle msgs
    cases oracle <;> simp [genLoop]
  | succ fuel ih =>
    intro tmo oracle msgs
    cases oracle with
    | nil => simp [genLoop]
    | cons resp rest =>
      by_cases hsr : resp.stop_reason = "tool_use"
      · cases tmo with
        | none => simp [genLoop, hsr]
        | some tm =>
          simp only [genLoop, hsr, ne_eq, not_true_eq_false, if_false, ite_false]
          simp [ih, List.replicate_succ]
      · simp [genLoop, hsr]

/-- One tool round followed by anything: the result of the run is the result of
the continuation after the two messages of the round are appended. -/
lemma genLoop_step_tool (g : AIGenerator) (sys : String) (tools : Option (List ToolDef))
    (tm : ToolManager) (r : ModelResponse) (rest : List ModelResponse) (fuel : Nat)
    (msgs : List Message) (hr : r.stop_reason = "tool_use") :
    (genLoop g sys tools (some tm) (r :: rest) msgs (fuel + 1)).result
      = (genLoop g sys tools (some tm) rest (msgs ++ roundMsgs tm r) fuel).result := by
  simp [genLoop, hr]

/-- `_execute_tools` over a content list: the results pair up one-to-one and in
order with the `tool_use` blocks, carrying their ids, and every result is a
`tool_result` block. -/
lemma execBlock_spec (tm : ToolManager) (l : List ContentBlock) :
    ((l.filterMap (execBlock tm)).map fun res => res.tool_use_id)
        = ((l.filter fun b => b.type == "tool_use").map fun b => b.id)
      ∧ (l.filterMap (execBlock tm)).length
        = (l.filter fun b => b.type == "tool_use").length
      ∧ ((l.filterMap (execBlock tm)).all fun res => res.type == "tool_result") = true := by
  induction l with
  | nil => simp
  | cons b t ih =>
    by_cases hb : b.type = "tool_use"
    · simp [execBlock, hb, List.filterMap_cons, List.filter_cons, ih.1, ih.2.1, ih.2.2]
    · simp [execBlock, hb, List.filterMap_cons, List.filter_cons, ih.1, ih.2.1, ih.2.2]

/-- A `tool_use` block whose dispatch raises contributes the converted error
string as its tool result. -/
lemma executeTools_mem_exn (tm : ToolManager) (r : ModelResponse) (b : ContentBlock)
    (e : String) (hb : b ∈ r.content) (ht : b.type = "tool_use")
    (he : tm.execute_tool b.name b.input = ToolOutcome.exn e) :
    ({ type := "tool_result", tool_use_id := b.id,
       content := "Error executing tool \x27" ++ b.name ++ "\x27: " ++ e } : ToolResultBlock)
      ∈ executeTools tm r := by
  unfold executeTools
  refine List.mem_filterMap.mpr ⟨b, hb, ?_⟩
  simp [execBlock, ht, he]

/-- A falsy `tools` argument (absent, or the empty list) produces exactly the
run that omitting tools produces. -/
lemma genLoop_falsy_tools (g : AIGenerator) (sys : String) (tools : Option (List ToolDef))
    (hfalsy : truthyList tools = false) :
    ∀ (fuel : Nat) (tmo : Option ToolManager) (oracle : List ModelResponse)
      (msgs : List Message),
      genLoop g sys tools tmo oracle msgs fuel = genLoop g sys none tmo oracle msgs fuel := by
  have hmk : ∀ msgs, mkApiParams g msgs sys tools = mkApiParams g msgs sys none := by
    intro msgs
    unfold mkApiParams
    rw [hfalsy]
    rfl
  intro fuel
  induction fuel with
  | zero =>
    intro tmo oracle msgs
    cases oracle <;> simp [genLoop]
  | succ fuel ih =>
    intro tmo oracle msgs
    cases oracle with
    | nil => simp [genLoop, hmk]
    | cons resp rest =>
      by_cases hsr : resp.stop_reason = "tool_use"
      · cases tmo with
        | none => simp [genLoop, hsr, hmk]
        | some tm =>
          simp only [genLoop, hsr, ne_eq, not_true_eq_false, if_false, ite_false]
          simp [hmk, ih]
      · simp [genLoop, hsr, hmk]

/-- When tools are omitted, no request of the run advertises tools or sets a
tool choice. -/
lemma genLoop_none_tools_all (g : AIGenerator) (sys : String) :
    ∀ (fuel : Nat) (tmo : Option ToolManager) (oracle : List ModelResponse)
      (msgs : List Message),
      ((genLoop g sys none tmo oracle msgs fuel).requests.all fun req =>
        req.tools.isNone && req.tool_choice.isNone) = true := by
  have hmk : ∀ msgs, (mkApiParams g msgs sys none).tools = none
      ∧ (mkApiParams g msgs sys none).tool_choice = none := fun _ => ⟨rfl, rfl⟩
  intro fuel
  induction fuel with
  | zero =>
    intro tmo oracle msgs
    cases oracle <;> simp [genLoop, mkApiParams, truthyList]
  | succ fuel ih =>
    intro tmo oracle msgs
    cases oracle with
    | nil => simp [genLoop, mkApiParams, truthyList]
    | cons resp rest =>
      by_cases hsr : resp.stop_reason = "tool_use"
      · cases tmo with
        | none => simp [genLoop, hsr, mkApiParams, truthyList]
        | some tm =>
          simp only [genLoop, hsr, ne_eq, not_true_eq_false, if_false, ite_false]
          simp [mkApiParams, truthyList, ih]
      · simp [genLoop, hsr, mkApiParams, truthyList]

/-! Claim theorems. -/

/-- Claim C1: for every `maxRounds = R ≥ 0` and every query in which the remote
model returns stop reason `tool_use` in every round where tools are offered
(with a tool registry supplied), `generate_response` makes exactly `R + 1`
remote calls, and the request of the final call contains no tool advertisements —
neither a `tools` nor a `tool_choice` parameter.  Here `R = pre.length` and
`pre` lists the tool-requesting responses of the offered rounds. -/
theorem c1_round_cap (g : AIGenerator) (q : String) (h : Option String)
    (ts : List ToolDef) (tm : ToolManager) (pre post : List ModelResponse)
    (hts : ts ≠ []) (hpre : ∀ p ∈ pre, p.stop_reason = "tool_use") :
    (generate_response g q h (some ts) (some tm) pre.length (pre ++ post)).requests.length
        = pre.length + 1
      ∧ (generate_response g q h (some ts) (some tm) pre.length (pre ++ post)).requests.map
          (fun req => (req.tools, req.tool_choice))
        = List.replicate pre.length (some ts, some "auto") ++ [(none, none)] := by
  unfold generate_response
  rw [genLoop_capped g (systemContent h) (some ts) tm pre post _ hpre]
  obtain ⟨t0, ts2, rfl⟩ : ∃ t0 ts2, ts = t0 :: ts2 := by
    cases ts with
    | nil => exact absurd rfl hts
    | cons a b => exact ⟨a, b, rfl⟩
  constructor
  · simp
  · simp [mkApiParams, truthyList, List.map_map, Function.comp_def, List.map_const']

/-- Witness for C1 at two tool rounds followed by a final forced call. -/
theorem c1_round_cap_witness :
    (generate_response g0 "Query" none (some [searchToolDef]) (some tmOk) 2
        [respToolUse, respToolUse, respFinal]).requests.length = 3
      ∧ (generate_response g0 "Query" none (some [searchToolDef]) (some tmOk) 2
          [respToolUse, respToolUse, respFinal]).requests.map
            (fun req => (req.tools, req.tool_choice))
        = List.replicate 2 (some [searchToolDef], some "auto") ++ [(none, none)] :=
  c1_round_cap g0 "Query" none [searchToolDef] tmOk [respToolUse, respToolUse]
    [respFinal] (by decide) (by decide)

/-- Claim C2: within one `generate_response` call the message list starts as
the single user message carrying the query and, after each completed tool
round, gains exactly the assistant message carrying the whole response content
followed by the user message carrying the tool results (this is
`transcriptAfter`); the message list sent by the `(i+1)`-th remote call is the
transcript after `i` completed rounds, and after `n` completed rounds the
transcript has length `1 + 2n` with roles alternating user, assistant, user,
assistant, ... -/
theorem c2_transcript_growth (g : AIGenerator) (q : String) (h : Option String)
    (ts : Option (List ToolDef)) (tm : ToolManager) (pre post : List ModelResponse)
    (hpre : ∀ p ∈ pre, p.stop_reason = "tool_use") :
    ((generate_response g q h ts (some tm) pre.length (pre ++ post)).requests.map
        fun req => req.messages)
        = (List.range (pre.length + 1)).map (fun i => transcriptAfter q tm (pre.take i))
      ∧ ((transcriptAfter q tm pre).map fun m => m.role)
        = "user" :: (pre.flatMap fun _ => ["assistant", "user"])
      ∧ (transcriptAfter q tm pre).length = 1 + 2 * pre.length := by
  refine ⟨?_, ?_, ?_⟩
  · unfold generate_response
    rw [genLoop_capped g (systemContent h) ts tm pre post _ hpre]
    simp [transcriptAfter, List.range_succ, List.take_length, List.map_map,
      Function.comp_def]
  · simp [transcriptAfter, List.map_flatMap, roundMsgs]
  · have hlen : ∀ rs : List ModelResponse,
        (rs.flatMap (roundMsgs tm)).length = 2 * rs.length := by
      intro rs
      induction rs with
      | nil => simp
      | cons a t ih => simp [List.flatMap_cons, roundMsgs, ih]; omega
    simp [transcriptAfter, hlen]
    omega

/-- Witness for C2 at two completed tool rounds. -/
theorem c2_transcript_growth_witness :
    ((generate_response g0 "Original query" none (some [searchToolDef]) (some tmOk) 2
        [respToolUse, respToolUse, respFinal]).requests.map fun req => req.messages)
        = (List.range 3).map
            (fun i => transcriptAfter "Original query" tmOk ([respToolUse, respToolUse].take i))
      ∧ ((transcriptAfter "Original query" tmOk [respToolUse, respToolUse]).map fun m => m.role)
        = "user" :: ([respToolUse, respToolUse].flatMap fun _ => ["assistant", "user"])
      ∧ (transcriptAfter "Original query" tmOk [respToolUse, respToolUse]).length = 1 + 2 * 2 :=
  c2_transcript_growth g0 "Original query" none (some [searchToolDef]) tmOk
    [respToolUse, respToolUse] [respFinal] (by decide)

/-- Claim C3: if the dispatched tool execution raises during a tool round,
`generate_response` does not raise — the exception is converted into a tool
result whose content is the string built from `Error executing tool`, the
name of the tool, and the original exception message — and the loop continues to
the next remote call and returns a final answer. -/
theorem c3_tool_failure_recovered (g : AIGenerator) (q : String) (h : Option String)
    (ts : Option (List ToolDef)) (tm : ToolManager) (r final : ModelResponse)
    (b : ContentBlock) (e t : String) (R : Nat)
    (hR : 1 ≤ R) (hr : r.stop_reason = "tool_use") (hb : b ∈ r.content)
    (hbt : b.type = "tool_use")
    (hexn : tm.execute_tool b.name b.input = ToolOutcome.exn e)
    (hfin : final.stop_reason ≠ "tool_use")
    (hft : firstText final.content = Except.ok t) :
    (generate_response g q h ts (some tm) R [r, final]).result = Except.ok t
      ∧ ({ type := "tool_result", tool_use_id := b.id,
           content := "Error executing tool \x27" ++ b.name ++ "\x27: " ++ e } : ToolResultBlock)
          ∈ executeTools tm r := by
  constructor
  · match R, hR with
    | R + 1, _ =>
      unfold generate_response
      rw [show ([r, final] : List ModelResponse) = r :: [final] from rfl]
      rw [genLoop_step_tool g (systemContent h) ts tm r [final] R _ hr]
      rw [genLoop_text_head g (systemContent h) ts (some tm) final [] hfin R _]
      exact hft
  · exact executeTools_mem_exn tm r b e hb hbt hexn

/-- Witness for C3: the backend raises `Database connection failed`; the run
still returns the final answer and the error text is routed back as the tool
result. -/
theorem c3_tool_failure_recovered_witness :
    (generate_response g0 "Query" none (some [searchToolDef]) (some tmExn) 2
        [respToolUse, respFinal]).result
        = Except.ok "Based on the course content, here is the answer."
      ∧ ({ type := "tool_result", tool_use_id := toolUseBlock.id,
           content := "Error executing tool \x27" ++ toolUseBlock.name ++ "\x27: "
             ++ "Database connection failed" } : ToolResultBlock)
          ∈ executeTools tmExn respToolUse :=
  c3_tool_failure_recovered g0 "Query" none (some [searchToolDef]) tmExn respToolUse respFinal
    toolUseBlock "Database connection failed" "Based on the course content, here is the answer."
    2 (by decide) (by decide) (by decide) (by decide) (by rfl) (by decide) (by rfl)

/-- Claim C4: for every query whose first remote response does not have stop
reason `tool_use`, `generate_response` makes exactly one remote call, executes
no tool, and returns the text of the first content block of that response verbatim; more
generally, a non-`tool_use` response arriving in any round before the cap
(after `pre.length` completed tool rounds, with `pre.length < R`)
short-circuits directly to returning its text, without the forced final call
and with only the dispatches of the earlier rounds performed. -/
theorem c4_early_text_short_circuit (g : AIGenerator) (q : String) (h : Option String)
    (ts : Option (List ToolDef)) (tm : ToolManager) (pre : List ModelResponse)
    (r : ModelResponse) (rest : List ModelResponse) (R : Nat)
    (hpre : ∀ p ∈ pre, p.stop_reason = "tool_use") (hlt : pre.length < R)
    (hr : r.stop_reason ≠ "tool_use") :
    (generate_response g q h ts (some tm) R (pre ++ r :: rest)).requests.length
        = pre.length + 1
      ∧ (generate_response g q h ts (some tm) R (pre ++ r :: rest)).result
        = firstText r.content
      ∧ (generate_response g q h ts (some tm) R (pre ++ r :: rest)).toolCalls
        = pre.flatMap fun p => toolCallsOf p.content := by
  unfold generate_response
  rw [genLoop_early g (systemContent h) ts tm r rest hr pre R _ hpre hlt]
  simp

/-- Witness for C4 with no completed rounds: one remote call, no tool
dispatched, and the text returned verbatim. -/
theorem c4_early_text_short_circuit_witness :
    (generate_response g0 "What is Python?" none (some [searchToolDef]) (some tmOk) 2
        [respFinal]).requests.length = 0 + 1
      ∧ (generate_response g0 "What is Python?" none (some [searchToolDef]) (some tmOk) 2
          [respFinal]).result = firstText respFinal.content
      ∧ (generate_response g0 "What is Python?" none (some [searchToolDef]) (some tmOk) 2
          [respFinal]).toolCalls = [] :=
  c4_early_text_short_circuit g0 "What is Python?" none (some [searchToolDef]) tmOk []
    respFinal [] 2 (by decide) (by decide) (by decide)

/-- Claim C5: `_execute_tools` produces exactly one `tool_result` block per
`tool_use` block of the response content, in the same relative order, each
result carrying a `tool_use_id` equal to the id of the `tool_use` block that produced
it; content blocks that are not `tool_use` produce no result. -/
theorem c5_result_order_pairing (tm : ToolManager) (r : ModelResponse) :
    ((executeTools tm r).map fun res => res.tool_use_id)
        = ((r.content.filter fun b => b.type == "tool_use").map fun b => b.id)
      ∧ (executeTools tm r).length = (r.content.filter fun b => b.type == "tool_use").length
      ∧ ((executeTools tm r).all fun res => res.type == "tool_result") = true := by
  unfold executeTools
  exact execBlock_spec tm r.content

/-- Claim C6 (amended): when a NON-EMPTY conversation history is supplied,
every remote call of the query carries a system text equal to the static
system prompt followed by the `Previous conversation:` header and the history;
when no history is supplied, the system text of every remote call is exactly
the static system prompt.  (The original claim, for every supplied history, is
refuted by `c6_empty_history_dropped`: Python truthiness makes a supplied
empty history behave as if no history had been supplied.) -/
theorem c6_history_in_system (g : AIGenerator) (q : String) (ts : Option (List ToolDef))
    (tmo : Option ToolManager) (R : Nat) (oracle : List ModelResponse)
    (h : String) (hne : h ≠ "") :
    ((generate_response g q (some h) ts tmo R oracle).requests.map fun req => req.system)
        = List.replicate (generate_response g q (some h) ts tmo R oracle).requests.length
            (SYSTEM_PROMPT ++ "\n\nPrevious conversation:\n" ++ h)
      ∧ ((generate_response g q none ts tmo R oracle).requests.map fun req => req.system)
        = List.replicate (generate_response g q none ts tmo R oracle).requests.length
            SYSTEM_PROMPT := by
  have hsys : systemContent (some h) = SYSTEM_PROMPT ++ "\n\nPrevious conversation:\n" ++ h := by
    simp [systemContent, truthyStr, hne]
  constructor
  · unfold generate_response
    rw [hsys]
    exact genLoop_system_map g (SYSTEM_PROMPT ++ "\n\nPrevious conversation:\n" ++ h) ts R
      tmo oracle [{ role := "user", content := MsgContent.text q }]
  · unfold generate_response
    exact genLoop_system_map g (systemContent none) ts R tmo oracle
      [{ role := "user", content := MsgContent.text q }]

/-- Witness for the amended C6 at a concrete non-empty history. -/
theorem c6_history_in_system_witness :
    ((generate_response g0 "Follow-up question" (some "User: Hi") none none 2
        [respFinal]).requests.map fun req => req.system)
        = List.replicate (generate_response g0 "Follow-up question" (some "User: Hi") none none 2
            [respFinal]).requests.length
            (SYSTEM_PROMPT ++ "\n\nPrevious conversation:\n" ++ "User: Hi")
      ∧ ((generate_response g0 "Follow-up question" none none none 2
          [respFinal]).requests.map fun req => req.system)
        = List.replicate (generate_response g0 "Follow-up question" none none none 2
            [respFinal]).requests.length SYSTEM_PROMPT :=
  c6_history_in_system g0 "Follow-up question" none none 2 [respFinal] "User: Hi" (by decide)

/-- Counterexample to claim C6 as stated: with the empty string supplied as
conversation history, the system text of the (single) remote call is exactly the
static system prompt — it does not carry the prior-turn context that the spec
reading (`specSystemText`) predicts for a supplied history. -/
theorem c6_empty_history_dropped :
    ((generate_response g0 "Follow-up question" (some "") none none 2 [respFinal]).requests.map
        fun req => req.system)
        = [SYSTEM_PROMPT]
      ∧ SYSTEM_PROMPT ≠ specSystemText (some "") := by
  constructor
  · rfl
  · intro hcontra
    have hlen := congrArg String.length hcontra
    rw [specSystemText] at hlen
    rw [String.length_append, String.length_append] at hlen
    have h25 : ("\n\nPrevious conversation:\n" : String).length = 25 := rfl
    have h0 : ("" : String).length = 0 := rfl
    omega

/-- Claim C7 (registry modelled from the spec, `search_tools.py` being absent
from the sources): for every name not registered in the tool registry,
`execute_tool` returns the literal diagnostic `Tool \x27<name>\x27 not found` as a
value — the registry state is unchanged and, the operation being total, no
exception is raised. -/
theorem c7_unknown_tool_diagnostic {α : Type} (st : Registry α) (name : String) (args : α)
    (habsent : st.tools.find? (fun t => t.name == name) = none) :
    (st.execute_tool name args).fst = "Tool \x27" ++ name ++ "\x27 not found"
      ∧ (st.execute_tool name args).snd = st := by
  unfold Registry.execute_tool
  rw [habsent]
  exact ⟨rfl, rfl⟩

/-- Witness for C7 on an empty registry. -/
theorem c7_unknown_tool_diagnostic_witness :
    (regEmpty.execute_tool "nonexistent_tool" ()).fst
        = "Tool \x27" ++ "nonexistent_tool" ++ "\x27 not found"
      ∧ (regEmpty.execute_tool "nonexistent_tool" ()).snd = regEmpty :=
  c7_unknown_tool_diagnostic regEmpty "nonexistent_tool" () (by rfl)

/-- Claim C8 (registry and search tool modelled from the spec): after
`reset_sources`, `get_last_sources` returns the empty list; and after one
successful execute of the registered search tool whose search finds exactly
one chunk, `get_last_sources` returns exactly one `Source`, carrying the
course/lesson title of the chunk and the resolved link (`chunkSource`). -/
theorem c8_sources_reset_and_single (vs : VectorStoreModel) (rest : List (RegTool SearchArgs))
    (st : Registry SearchArgs) (args : SearchArgs) (c : Chunk)
    (hst : st.tools = courseSearchTool vs :: rest)
    (hsearch : vs.search args = { chunks := [c], error := none }) :
    (st.reset_sources).get_last_sources = []
      ∧ ((st.reset_sources).execute_tool "search_course_content" args).snd.get_last_sources
        = [chunkSource vs c] := by
  constructor
  · rfl
  · have hrun : courseSearchRun vs args
        = RunResult.ok (String.intercalate "\n\n" [formatChunk c]) [chunkSource vs c] := by
      unfold courseSearchRun
      rw [hsearch]
      rfl
    simp [Registry.execute_tool, Registry.reset_sources, Registry.get_last_sources, hst,
      courseSearchTool, hrun]

/-- Witness for C8 on the concrete one-chunk backend. -/
theorem c8_sources_reset_and_single_witness :
    (reg0.reset_sources).get_last_sources = []
      ∧ ((reg0.reset_sources).execute_tool "search_course_content" args0).snd.get_last_sources
        = [chunkSource vs0 chunk0] :=
  c8_sources_reset_and_single vs0 [] reg0 args0 chunk0 (by rfl) (by rfl)

/-- Claim C9: if a remote response has stop reason `tool_use` but no tool
manager was supplied, `generate_response` returns the text of the first content
block (`response.content[0].text`); when that first block is a `tool_use` block
with no `text` attribute, the call fails loudly with `AttributeError` instead
of silently returning a value. -/
theorem c9_no_manager_fails_loudly (g : AIGenerator) (q : String) (h : Option String)
    (ts : Option (List ToolDef)) (r : ModelResponse) (rest : List ModelResponse)
    (R : Nat) (b : ContentBlock) (bs : List ContentBlock)
    (hR : 1 ≤ R) (hr : r.stop_reason = "tool_use")
    (hc : r.content = b :: bs) (hbt : b.text = none) :
    (generate_response g q h ts none R (r :: rest)).result = firstText r.content
      ∧ (generate_response g q h ts none R (r :: rest)).result
        = Except.error PyError.attributeError := by
  have hres : (generate_response g q h ts none R (r :: rest)).result = firstText r.content := by
    match R, hR with
    | R + 1, _ =>
      unfold generate_response
      simp [genLoop, hr]
  refine ⟨hres, ?_⟩
  rw [hres, hc]
  simp [firstText, hbt]

/-- Witness for C9: the mocked `tool_use` response whose only block has no
`text` attribute produces `AttributeError`. -/
theorem c9_no_manager_fails_loudly_witness :
    (generate_response g0 "Search for Python" none (some []) none 2
        [respToolUse]).result = firstText respToolUse.content
      ∧ (generate_response g0 "Search for Python" none (some []) none 2
          [respToolUse]).result = Except.error PyError.attributeError :=
  c9_no_manager_fails_loudly g0 "Search for Python" none (some []) respToolUse [] 2
    toolUseBlock [] (by decide) (by decide) (by decide) (by decide)

/-- Claim C10: calling `generate_response` with an empty list of tool
definitions behaves exactly like omitting tools — the whole observable trace
coincides — and in particular no remote call of the query carries a `tools`
or a `tool_choice` parameter. -/
theorem c10_empty_tools_like_none (g : AIGenerator) (q : String) (h : Option String)
    (tmo : Option ToolManager) (R : Nat) (oracle : List ModelResponse) :
    generate_response g q h (some []) tmo R oracle = generate_response g q h none tmo R oracle
      ∧ ((generate_response g q h (some []) tmo R oracle).requests.all fun req =>
          req.tools.isNone && req.tool_choice.isNone) = true := by
  have heq : generate_response g q h (some []) tmo R oracle
      = generate_response g q h none tmo R oracle := by
    unfold generate_response
    exact genLoop_falsy_tools g (systemContent h) (some []) rfl R tmo oracle _
  refine ⟨heq, ?_⟩
  rw [heq]
  unfold generate_response
  exact genLoop_none_tools_all g (systemContent h) R tmo oracle _
